import Mathlib

/-!
# Shallow embedding of the YallaBeena assets-service orchestrator and event dispatcher

Definitions translate the Go source under `src/` directly:

* `internal/core/domain/errors.go` — error codes and `DomainError`/`NewDomainError`;
* `internal/core/domain` (asset model file) — `Asset`, `CreateAssetDto`;
* `internal/core/services/assets_service.go` — the primary `AssetsService`
  (`uploadAsset`, `getAssetByID`, `deleteAsset`);
* `unnamed/part_008` (second `AssetsService` variant in package `services`) —
  `getAssetByIDAlt`, `deleteAssetAlt`;
* `internal/adapters/kafka/event_consumer.go` — `handleMessage`, commit decision;
* `internal/adapters/logger/logger.go` (second file in that blob, package `kafka`,
  `AssetsHandler.handleUserCreated`) — `handleUserCreated`.

External collaborators (object store, repository, cache, Kafka reader, the
publisher) are modelled as outcome oracles: each service call consumes the
corresponding field of a ports structure, and every call that is issued is
recorded in an explicit effect trace, in program order.  Nondeterministic
inputs of the Go code (`uuid.New()`, `time.Now().Unix()`, the SHA-256 digest)
are threaded as parameters; the digest function is passed uninterpreted since
no claim depends on its value.  A Go `nil`-pointer dereference is modelled as
a distinguished `panicked` result.
-/

/-- Error code `domain.ResourceNotFoundError` from `errors.go`. -/
def ResourceNotFoundError : String := "resource_not_found_error"

/-- Error code `domain.UnauthorizedError` from `errors.go`. -/
def UnauthorizedError : String := "unauthorized_error"

/-- Error code `domain.UnableToDeleteError` from `errors.go`. -/
def UnableToDeleteError : String := "unable_to_delete_error"

/-- Error code `domain.UnableToMarshalError` from `errors.go`. -/
def UnableToMarshalError : String := "unable_to_marshal_error"

/-- Error code `domain.InvalidInputError` from `errors.go`. -/
def InvalidInputError : String := "invalid_input_error"

/-- `domain.DomainError` from `errors.go`: code, message and the wrapped
underlying error (Go `error`, modelled by its message; `none` = Go `nil`). -/
structure DomainError where
  code : String
  message : String
  err : Option String
deriving DecidableEq, Repr

/-- `domain.NewDomainError` from `errors.go`.  Note the source substitutes a
fixed `errors.New("Asset not found")` when the wrapped error is `nil`. -/
def NewDomainError (code message : String) (err : Option String) : DomainError :=
  match err with
  | none => { code := code, message := message, err := some "Asset not found" }
  | some e => { code := code, message := message, err := some e }

/-- `domain.Asset`.  Go pointer fields become `Option`, `pq.StringArray`
becomes `List String`, `json.RawMessage` becomes an opaque `Option String`
document, and timestamps keep their Go representation (strings / optional
strings). -/
structure Asset where
  id : String
  url : String
  publicURL : String
  filename : String
  fileSize : Int
  metadata : Option String
  secure : Bool
  storageKey : Option String
  storageProvider : Option String
  resourceID : Option String
  resourceType : Option String
  contentType : String
  userID : Option String
  accessLevel : String
  allowedRoles : List String
  isEncrypted : Bool
  encryptionKey : Option String
  lastAccessedAt : Option String
  deletedAt : Option String
  tags : List String
  createdAt : String
  updatedAt : String
  active : Bool
  fileHash : String
deriving DecidableEq, Repr

/-- `domain.CreateAssetDto`. -/
structure CreateAssetDto where
  url : String
  publicURL : Option String
  filename : String
  fileSize : Int
  metadata : Option String
  secure : Bool
  fileHash : String
  storageKey : Option String
  storageProvider : Option String
  resourceID : Option String
  resourceType : Option String
  contentType : String
  userID : Option String
  accessLevel : String
  allowedRoles : List String
  isEncrypted : Bool
  encryptionKey : Option String
  tags : List String
deriving DecidableEq, Repr

/-- One observable call issued by the orchestrator to a port, with the
arguments that identify it.  Traces list effects in program order. -/
inductive Effect
  | storagePut (key : String) (contentType : String)
  | storageDelete (key : String)
  | repoCreate (storageKey : Option String)
  | repoGet (assetID : String)
  | repoSoftDelete (assetID : String)
  | cacheGet (key : String)
  | cacheSet (key : String)
  | cacheDelete (key : String)
deriving DecidableEq, Repr

/-- `uniqueSlug := fmt.Sprintf("%d_%s", timestamp, createDto.Filename)` in
`assets_service.go` (`time.Now().Unix()` passed in as `timestamp`). -/
def uniqueSlug (timestamp : Nat) (filename : String) : String :=
  toString timestamp ++ "_" ++ filename

/-- The file-key derivation of `assets_service.go` lines 51–56, with Go
short-circuit evaluation made explicit.  The first guard
`rt != nil && *rt != "" && rid != nil && *rid != ""` never dereferences a nil
pointer.  The second guard `rt != nil && *rt != "" && (rid != nil || *rid != "")`
evaluates `*createDto.ResourceID` when `ResourceID` is nil (the left disjunct
is false), which is a nil-pointer dereference: modelled as `Except.error ()`
(a Go panic).  When neither guard fires, `fileKey` keeps its initial value
`""`. -/
def computeFileKey (resourceType resourceID : Option String) (uSlug : String) :
    Except Unit String :=
  match resourceType with
  | none => Except.ok ""
  | some t =>
    if t = "" then Except.ok ""
    else
      match resourceID with
      | some i =>
        if i = "" then Except.ok (t ++ "/" ++ uSlug)
        else Except.ok (t ++ "/" ++ i ++ "/" ++ uSlug)
      | none => Except.error ()

/-- The ownership guard `asset.UserID != nil && *asset.UserID != userID` of
`DeleteAsset` (both variants). -/
def ownerMismatch (assetUserID : Option String) (userID : String) : Bool :=
  match assetUserID with
  | some owner => owner != userID
  | none => false

/-- Errors returned by the primary `UploadAsset`: the storage failure is a
plain `fmt.Errorf` wrap, the repository failure a `DomainError`. -/
inductive ServiceError
  | fmtError (msg : String)
  | domainError (e : DomainError)
deriving DecidableEq, Repr

/-- Result of one `UploadAsset` execution.  `panicked` models the Go runtime
nil-pointer-dereference panic. -/
inductive UploadResult
  | panicked
  | failure (e : ServiceError)
  | success (a : Asset)
deriving DecidableEq, Repr

/-- Outcomes of the port calls `UploadAsset` can issue, in the order the
source issues them.  `uploadFile` yields the asset URL on success; the
outcomes of the compensating `deleteFile` and of `cacheSet` are only logged
by the source. -/
structure UploadPorts where
  uploadFile : Except String String
  createAsset : Except String Asset
  deleteFile : Except String Unit
  cacheSet : Except String Unit
deriving Repr

/-- `AssetsService.UploadAsset` from
`internal/core/services/assets_service.go` (the primary variant).
`sha256Hex` stands for `fmt.Sprintf("%x", sha256.Sum256(fileData))`,
`timestamp` for `time.Now().Unix()`, `assetID` for `uuid.New().String()`.
The metadata map built from `file_hash`/`upload_timestamp`/`storage_key`
merged with the caller document is kept opaque (no claim reads it, and
`json.Marshal` of that map cannot fail on these value kinds), so the
repository DTO carries the caller metadata field through. -/
def uploadAsset (createDto : CreateAssetDto) (fileData : List Nat)
    (sha256Hex : List Nat → String) (timestamp : Nat) (assetID : String)
    (ports : UploadPorts) : UploadResult × List Effect :=
  let uSlug := uniqueSlug timestamp createDto.filename
  match computeFileKey createDto.resourceType createDto.resourceID uSlug with
  | Except.error _ => (UploadResult.panicked, [])
  | Except.ok fileKey =>
    match ports.uploadFile with
    | Except.error e =>
      (UploadResult.failure (ServiceError.fmtError
          ("failed to upload file to storage: " ++ e)),
        [Effect.storagePut fileKey createDto.contentType])
    | Except.ok assetURL =>
      let fileHash := sha256Hex fileData
      let publicUrl := "assets/" ++ assetID
      let fileSize : Int := fileData.length
      let assetDto : CreateAssetDto :=
        { url := assetURL
          publicURL := some publicUrl
          filename := createDto.filename
          fileSize := fileSize
          metadata := createDto.metadata
          secure := createDto.secure
          fileHash := fileHash
          storageKey := some fileKey
          storageProvider := some "minio"
          resourceID := createDto.resourceID
          resourceType := createDto.resourceType
          contentType := createDto.contentType
          userID := createDto.userID
          accessLevel := createDto.accessLevel
          allowedRoles := []
          isEncrypted := createDto.isEncrypted
          encryptionKey := createDto.encryptionKey
          tags := createDto.tags }
      match ports.createAsset with
      | Except.error e =>
        -- rollback: the compensating delete is issued; its outcome
        -- (ports.deleteFile) is only logged by the source, never returned
        (UploadResult.failure (ServiceError.domainError
            (NewDomainError UnableToMarshalError
              "Failed to save asset metadata" (some e))),
          [Effect.storagePut fileKey createDto.contentType,
            Effect.repoCreate assetDto.storageKey,
            Effect.storageDelete fileKey])
      | Except.ok savedAsset =>
        -- the cache-set outcome (ports.cacheSet) is only logged by the source
        (UploadResult.success savedAsset,
          [Effect.storagePut fileKey createDto.contentType,
            Effect.repoCreate assetDto.storageKey,
            Effect.cacheSet ("asset:" ++ assetID)])

/-- Port outcomes for the primary `GetAssetByID` (no cache write-back call
exists in that source). -/
structure GetPorts where
  cacheGet : Except String Asset
  repoGet : Except String Asset
deriving Repr

/-- `AssetsService.GetAssetByID` from `assets_service.go`: cache read keyed by
the raw asset id; any cache error falls through to the repository; a
repository error is mapped to a `ResourceNotFoundError` domain error.  The
source performs no cache write-back. -/
def getAssetByID (assetID : String) (ports : GetPorts) :
    Except DomainError Asset × List Effect :=
  match ports.cacheGet with
  | Except.ok asset => (Except.ok asset, [Effect.cacheGet assetID])
  | Except.error _ =>
    match ports.repoGet with
    | Except.error e =>
      (Except.error (NewDomainError ResourceNotFoundError "Asset not found" (some e)),
        [Effect.cacheGet assetID, Effect.repoGet assetID])
    | Except.ok asset =>
      (Except.ok asset, [Effect.cacheGet assetID, Effect.repoGet assetID])

/-- Port outcomes for the `part_008` variant of `GetAssetByID`, which adds a
best-effort cache write-back after a repository hit. -/
structure GetPortsAlt where
  cacheGet : Except String Asset
  repoGet : Except String Asset
  cacheSet : Except String Unit
deriving Repr

/-- `AssetsService.GetAssetByID` from the `part_008` variant: cache key
`fmt.Sprintf("assets:%s", assetID)`, and on a repository hit the asset is
written back to the cache with the set outcome only logged. -/
def getAssetByIDAlt (assetID : String) (ports : GetPortsAlt) :
    Except DomainError Asset × List Effect :=
  let cacheKey := "assets:" ++ assetID
  match ports.cacheGet with
  | Except.ok asset => (Except.ok asset, [Effect.cacheGet cacheKey])
  | Except.error _ =>
    match ports.repoGet with
    | Except.error e =>
      (Except.error (NewDomainError ResourceNotFoundError "Asset not found" (some e)),
        [Effect.cacheGet cacheKey, Effect.repoGet assetID])
    | Except.ok asset =>
      -- write-back; the set outcome (ports.cacheSet) is only logged
      (Except.ok asset,
        [Effect.cacheGet cacheKey, Effect.repoGet assetID, Effect.cacheSet cacheKey])

/-- Port outcomes for the primary `DeleteAsset` (the storage delete is
commented out in that source, so only repository calls exist). -/
structure DeletePorts where
  repoGet : Except String Asset
  repoDelete : Except String Unit
deriving Repr

/-- `AssetsService.DeleteAsset` from `internal/core/services/assets_service.go`.
The object-store delete is absent: the source carries only the comment
`Delete from storage (TODO: implement actual storage deletion)` and goes
straight from the ownership check to the repository delete. -/
def deleteAsset (assetID userID : String) (ports : DeletePorts) :
    Option DomainError × List Effect :=
  match ports.repoGet with
  | Except.error e =>
    (some (NewDomainError ResourceNotFoundError "Asset not found" (some e)),
      [Effect.repoGet assetID])
  | Except.ok asset =>
    if ownerMismatch asset.userID userID then
      (some (NewDomainError UnauthorizedError "Asset does not belong to user" none),
        [Effect.repoGet assetID])
    else
      match ports.repoDelete with
      | Except.error e =>
        (some (NewDomainError UnableToDeleteError "Failed to delete asset" (some e)),
          [Effect.repoGet assetID, Effect.repoSoftDelete assetID])
      | Except.ok _ =>
        (none, [Effect.repoGet assetID, Effect.repoSoftDelete assetID])

/-- Result of the `part_008` `DeleteAsset`, which dereferences
`*asset.StorageKey` and therefore can panic when the loaded asset has a nil
storage key. -/
inductive DeleteAltResult
  | panicked
  | failure (e : DomainError)
  | success
deriving DecidableEq, Repr

/-- Port outcomes for the `part_008` variant of `DeleteAsset`, in program
order; the cache-delete outcome is only logged by the source. -/
structure DeletePortsAlt where
  repoGet : Except String Asset
  storageDelete : Except String Unit
  cacheDelete : Except String Unit
  repoDelete : Except String Unit
deriving Repr

/-- `AssetsService.DeleteAsset` from the `part_008` variant: ownership check,
then object-store delete (aborting on failure), then best-effort cache
invalidation keyed `assets:{id}`, then the repository delete. -/
def deleteAssetAlt (assetID userID : String) (ports : DeletePortsAlt) :
    DeleteAltResult × List Effect :=
  match ports.repoGet with
  | Except.error e =>
    (DeleteAltResult.failure
        (NewDomainError ResourceNotFoundError "Asset not found" (some e)),
      [Effect.repoGet assetID])
  | Except.ok asset =>
    if ownerMismatch asset.userID userID then
      (DeleteAltResult.failure
          (NewDomainError UnauthorizedError "Asset does not belong to user" none),
        [Effect.repoGet assetID])
    else
      match asset.storageKey with
      | none => (DeleteAltResult.panicked, [Effect.repoGet assetID])
      | some key =>
        match ports.storageDelete with
        | Except.error e =>
          (DeleteAltResult.failure
              (NewDomainError UnableToDeleteError
                "Failed to delete file from storage" (some e)),
            [Effect.repoGet assetID, Effect.storageDelete key])
        | Except.ok _ =>
          -- cache invalidation; the delete outcome (ports.cacheDelete) is only logged
          match ports.repoDelete with
          | Except.error e =>
            (DeleteAltResult.failure
                (NewDomainError UnableToDeleteError "Failed to delete asset" (some e)),
              [Effect.repoGet assetID, Effect.storageDelete key,
                Effect.cacheDelete ("assets:" ++ assetID),
                Effect.repoSoftDelete assetID])
          | Except.ok _ =>
            (DeleteAltResult.success,
              [Effect.repoGet assetID, Effect.storageDelete key,
                Effect.cacheDelete ("assets:" ++ assetID),
                Effect.repoSoftDelete assetID])

/-- `domain.EventMetadata` from the domain events file. -/
structure EventMetadata where
  source : String
  correlationID : String
  causationID : String
  userID : String
deriving DecidableEq, Repr

/-- `domain.DomainEvent`; the `Data` payload is kept as an opaque document
since the dispatcher only forwards it. -/
structure DomainEvent where
  id : String
  type : String
  aggregateID : String
  version : Int
  dataDoc : String
  metadata : EventMetadata
deriving DecidableEq, Repr

/-- Environment of one `handleMessage` execution in `event_consumer.go`:
the `json.Unmarshal` outcome for the fetched message body, and the handler
registry together with the outcome the registered handler would produce for
this event (Go `handlers[domainEvent.Type]` lookup plus `handler.Handle`). -/
structure ConsumerEnv where
  deserialize : Option DomainEvent
  handlers : String → Option (Except String Unit)

/-- `EventConsumer.handleMessage` from `event_consumer.go`: a deserialization
failure is returned as an error; a missing handler returns `nil` (not an
error); a handler error is wrapped and returned; handler success returns
`nil`. -/
def handleMessage (env : ConsumerEnv) : Option String :=
  match env.deserialize with
  | none => some "failed to unmarshal domain event"
  | some ev =>
    match env.handlers ev.type with
    | none => none
    | some (Except.error e) =>
      some ("handler failed for event " ++ ev.type ++ ": " ++ e)
    | some (Except.ok _) => none

/-- The commit decision of `consumeMessages` in `event_consumer.go`: after a
fetch, `reader.CommitMessages` is called exactly when `handleMessage`
returned `nil` (a failed commit is only logged; a non-commit leaves the
offset un-advanced so the message is refetched). -/
def commitAttempted (env : ConsumerEnv) : Bool :=
  (handleMessage env).isNone

/-- `events.UserCreatedEvent` from `internal/core/events/users.go`. -/
structure UserCreatedEvent where
  userID : String
  name : String
  email : Option String
  phone : Option String
  locale : Option String
  country : Option String
  deviceID : Option String
  notificationToken : Option String
  userType : String
deriving DecidableEq, Repr

/-- Observable calls the user-created handler can issue. -/
inductive HandlerEffect
  | uploadAsset (filename contentType : String) (userID : String)
      (resourceType resourceID : Option String)
  | publishAvatarUpdated (userID : String) (assetURL : String)
deriving DecidableEq, Repr

/-- Environment of one `handleUserCreated` execution in the `AssetsHandler`
(`logger.go` blob, package `kafka`): the outcome of re-marshalling
`event.Data` and unmarshalling it into a `UserCreatedEvent`, then the
outcomes of `assetsService.UploadAsset` and
`eventPublisher.PublishAvatarUpdated`. -/
structure UserCreatedPorts where
  decode : Except String UserCreatedEvent
  uploadAsset : Except String Asset
  publishAvatarUpdated : Except String Unit

/-- `AssetsHandler.handleUserCreated`: decode failures are returned as
errors; an empty decoded `UserID` is logged and `nil` is returned with no
further call; otherwise a fixed avatar-creation DTO
(`avatar.png`, `image/png`, resource type `users`, nil resource id, the
`GetDefaultAvatar()` bytes) is uploaded and an avatar-updated event is
published, each failure being wrapped as a gRPC internal error. -/
def handleUserCreated (ports : UserCreatedPorts) :
    Option String × List HandlerEffect :=
  match ports.decode with
  | Except.error e => (some e, [])
  | Except.ok u =>
    if u.userID = "" then (none, [])
    else
      match ports.uploadAsset with
      | Except.error e =>
        (some ("failed to upload asset: " ++ e),
          [HandlerEffect.uploadAsset "avatar.png" "image/png" u.userID (some "users") none])
      | Except.ok asset =>
        match ports.publishAvatarUpdated with
        | Except.error e =>
          (some ("failed to publish avatar updated event: " ++ e),
            [HandlerEffect.uploadAsset "avatar.png" "image/png" u.userID (some "users") none,
              HandlerEffect.publishAvatarUpdated u.userID asset.url])
        | Except.ok _ =>
          (none,
            [HandlerEffect.uploadAsset "avatar.png" "image/png" u.userID (some "users") none,
              HandlerEffect.publishAvatarUpdated u.userID asset.url])

/-! ## Concrete example values used by witnesses and counterexamples -/

/-- A creation request with no resource association (the spec scenario input). -/
def dtoNoResource : CreateAssetDto :=
  { url := ""
    publicURL := none
    filename := "avatar.png"
    fileSize := 0
    metadata := none
    secure := false
    fileHash := ""
    storageKey := none
    storageProvider := none
    resourceID := none
    resourceType := none
    contentType := "image/png"
    userID := some "u1"
    accessLevel := "public"
    allowedRoles := []
    isEncrypted := false
    encryptionKey := none
    tags := [] }

/-- The DTO shape `handleUserCreated` builds: resource type `users`, nil
resource id. -/
def dtoUsersNilResourceID : CreateAssetDto :=
  { dtoNoResource with resourceType := some "users", resourceID := none }

/-- A stored asset owned by user `userB`, with storage key `k1`. -/
def assetOwnedByB : Asset :=
  { id := "a1"
    url := "minio://bucket/k1"
    publicURL := "assets/a1"
    filename := "f.png"
    fileSize := 3
    metadata := none
    secure := false
    storageKey := some "k1"
    storageProvider := some "minio"
    resourceID := none
    resourceType := none
    contentType := "image/png"
    userID := some "userB"
    accessLevel := "public"
    allowedRoles := []
    isEncrypted := false
    encryptionKey := none
    lastAccessedAt := none
    deletedAt := none
    tags := []
    createdAt := ""
    updatedAt := ""
    active := true
    fileHash := "h" }

/-- A stand-in digest function for concrete runs (the digest value is never
inspected by any claim). -/
def shaStub : List Nat → String := fun _ => "d0"

/-- Upload port outcomes where every backend call succeeds (the repository
returns `assetOwnedByB`). -/
def portsAllOk : UploadPorts :=
  { uploadFile := Except.ok "minio://bucket/key"
    createAsset := Except.ok assetOwnedByB
    deleteFile := Except.ok ()
    cacheSet := Except.ok () }

/-- A consumer environment whose message deserializes but whose event type has
no registered handler. -/
def envNoHandler : ConsumerEnv :=
  { deserialize := some
      { id := "e1"
        type := "users.created"
        aggregateID := "u1"
        version := 1
        dataDoc := ""
        metadata :=
          { source := "users-service", correlationID := "c1", causationID := "", userID := "" } }
    handlers := fun _ => none }

/-- A decoded user-created event whose user identifier is empty. -/
def userEventEmptyID : UserCreatedEvent :=
  { userID := ""
    name := "n"
    email := none
    phone := none
    locale := none
    country := none
    deviceID := none
    notificationToken := none
    userType := "customer" }

/-! ## Claim theorems -/

/-- C1 counterexample: with the object write succeeded and the metadata write
failed, the result returned when the compensating delete fails is the very
same value as when it succeeds — the source only logs the rollback error — so
no error distinguishable as an orphaned-object condition is returned. -/
theorem upload_rollback_error_indistinct :
    (uploadAsset dtoNoResource [1, 2, 3] shaStub 5 "id1"
        { uploadFile := Except.ok "minio://bucket/key"
          createAsset := Except.error "db down"
          deleteFile := Except.error "network down"
          cacheSet := Except.ok () }).1
      = (uploadAsset dtoNoResource [1, 2, 3] shaStub 5 "id1"
        { uploadFile := Except.ok "minio://bucket/key"
          createAsset := Except.error "db down"
          deleteFile := Except.ok ()
          cacheSet := Except.ok () }).1
    ∧ (uploadAsset dtoNoResource [1, 2, 3] shaStub 5 "id1"
        { uploadFile := Except.ok "minio://bucket/key"
          createAsset := Except.error "db down"
          deleteFile := Except.error "network down"
          cacheSet := Except.ok () }).1
      = UploadResult.failure (ServiceError.domainError
          (NewDomainError UnableToMarshalError
            "Failed to save asset metadata" (some "db down"))) := by
  exact ⟨rfl, rfl⟩

/-- C1 (amended): whenever the object-store write succeeds and the metadata
write fails, the orchestrator issues a compensating delete of the just-written
object before returning; the returned error is the metadata-failure domain
error regardless of the compensating-delete outcome (which is only logged), so
no distinct orphaned-object error is produced. -/
theorem upload_compensating_delete (dto : CreateAssetDto) (fileData : List Nat)
    (sha : List Nat → String) (ts : Nat) (aid url e k : String)
    (dOut cOut : Except String Unit)
    (hk : computeFileKey dto.resourceType dto.resourceID (uniqueSlug ts dto.filename)
      = Except.ok k) :
    uploadAsset dto fileData sha ts aid
      { uploadFile := Except.ok url, createAsset := Except.error e,
        deleteFile := dOut, cacheSet := cOut }
    = (UploadResult.failure (ServiceError.domainError
          (NewDomainError UnableToMarshalError
            "Failed to save asset metadata" (some e))),
        [Effect.storagePut k dto.contentType,
          Effect.repoCreate (some k),
          Effect.storageDelete k]) := by
  simp [uploadAsset, hk]

/-- Witness for `upload_compensating_delete` at a concrete input. -/
theorem upload_compensating_delete_witness :
    uploadAsset dtoNoResource [1] shaStub 7 "idW"
      { uploadFile := Except.ok "minio://bucket/key", createAsset := Except.error "db down",
        deleteFile := Except.error "network down", cacheSet := Except.ok () }
    = (UploadResult.failure (ServiceError.domainError
          (NewDomainError UnableToMarshalError
            "Failed to save asset metadata" (some "db down"))),
        [Effect.storagePut "" "image/png",
          Effect.repoCreate (some ""),
          Effect.storageDelete ""]) :=
  upload_compensating_delete dtoNoResource [1] shaStub 7 "idW"
    "minio://bucket/key" "db down" "" (Except.error "network down") (Except.ok ()) rfl

/-- C2: at the failing input — `DeleteAsset` on the primary service
(`internal/core/services/assets_service.go`) for an asset owned by the caller,
all ports succeeding — the repository delete is performed while no
object-store delete appears anywhere in the trace: the storage delete exists
only as a TODO comment in that source, contradicting the claimed strict
store-before-repository ordering. -/
theorem delete_primary_skips_storage_delete :
    deleteAsset "a1" "userB"
      { repoGet := Except.ok assetOwnedByB, repoDelete := Except.ok () }
    = (none, [Effect.repoGet "a1", Effect.repoSoftDelete "a1"]) := by
  rfl

/-- C2 context: the `part_008` variant of `DeleteAsset` does attempt the
object-store delete strictly before the repository delete, and on a storage
failure aborts with the storage-delete error leaving the row untouched. -/
theorem delete_alt_storage_before_repo (assetID userID k e : String) (asset : Asset)
    (p : DeletePortsAlt)
    (hGet : p.repoGet = Except.ok asset)
    (hOwn : ownerMismatch asset.userID userID = false)
    (hKey : asset.storageKey = some k)
    (hSd : p.storageDelete = Except.error e) :
    deleteAssetAlt assetID userID p
      = (DeleteAltResult.failure
            (NewDomainError UnableToDeleteError
              "Failed to delete file from storage" (some e)),
          [Effect.repoGet assetID, Effect.storageDelete k]) := by
  simp [deleteAssetAlt, hGet, hOwn, hKey, hSd]

/-- Witness for `delete_alt_storage_before_repo` at a concrete input. -/
theorem delete_alt_storage_before_repo_witness :
    deleteAssetAlt "a1" "userB"
      { repoGet := Except.ok assetOwnedByB, storageDelete := Except.error "s3 down",
        cacheDelete := Except.ok (), repoDelete := Except.ok () }
      = (DeleteAltResult.failure
            (NewDomainError UnableToDeleteError
              "Failed to delete file from storage" (some "s3 down")),
          [Effect.repoGet "a1", Effect.storageDelete "k1"]) :=
  delete_alt_storage_before_repo "a1" "userB" "k1" "s3 down" assetOwnedByB _
    rfl (by decide) rfl rfl

/-- C3: at the failing inputs — an upload request with an empty filename, an
empty content type, or zero-length bytes, all ports succeeding — `UploadAsset`
returns success and the trace shows the object-store write, the repository
write and the cache population all executed: no `InvalidInput` fast failure
and no absence of side effects. -/
theorem upload_accepts_empty_inputs :
    uploadAsset { dtoNoResource with filename := "" } [1, 2, 3] shaStub 5 "id1" portsAllOk
      = (UploadResult.success assetOwnedByB,
          [Effect.storagePut "" "image/png", Effect.repoCreate (some ""),
            Effect.cacheSet "asset:id1"])
    ∧ uploadAsset { dtoNoResource with contentType := "" } [1, 2, 3] shaStub 5 "id1" portsAllOk
      = (UploadResult.success assetOwnedByB,
          [Effect.storagePut "" "", Effect.repoCreate (some ""),
            Effect.cacheSet "asset:id1"])
    ∧ uploadAsset dtoNoResource [] shaStub 5 "id1" portsAllOk
      = (UploadResult.success assetOwnedByB,
          [Effect.storagePut "" "image/png", Effect.repoCreate (some ""),
            Effect.cacheSet "asset:id1"]) := by
  exact ⟨rfl, rfl, rfl⟩

/-- C4: when the loaded asset has a set, non-empty owning user different from
the requesting user, both `DeleteAsset` variants return the `Unauthorized`
domain error and the trace contains only the repository read — no storage
delete, no repository delete, no cache invalidation. -/
theorem delete_unauthorized_no_mutation (assetID userID owner : String) (asset : Asset)
    (pd : DeletePorts) (pda : DeletePortsAlt)
    (hOwner : asset.userID = some owner) (hNe : owner ≠ userID) (hNonempty : owner ≠ "")
    (h1 : pd.repoGet = Except.ok asset) (h2 : pda.repoGet = Except.ok asset) :
    deleteAsset assetID userID pd
      = (some (NewDomainError UnauthorizedError "Asset does not belong to user" none),
          [Effect.repoGet assetID])
    ∧ deleteAssetAlt assetID userID pda
      = (DeleteAltResult.failure
            (NewDomainError UnauthorizedError "Asset does not belong to user" none),
          [Effect.repoGet assetID]) := by
  have hm : ownerMismatch asset.userID userID = true := by
    rw [hOwner]
    simpa [ownerMismatch] using hNe
  constructor
  · simp [deleteAsset, h1, hm]
  · simp [deleteAssetAlt, h2, hm]

/-- Witness for `delete_unauthorized_no_mutation` at a concrete input. -/
theorem delete_unauthorized_no_mutation_witness :
    deleteAsset "a1" "userA"
      { repoGet := Except.ok assetOwnedByB, repoDelete := Except.ok () }
      = (some (NewDomainError UnauthorizedError "Asset does not belong to user" none),
          [Effect.repoGet "a1"])
    ∧ deleteAssetAlt "a1" "userA"
        { repoGet := Except.ok assetOwnedByB, storageDelete := Except.ok (),
          cacheDelete := Except.ok (), repoDelete := Except.ok () }
      = (DeleteAltResult.failure
            (NewDomainError UnauthorizedError "Asset does not belong to user" none),
          [Effect.repoGet "a1"]) :=
  delete_unauthorized_no_mutation "a1" "userA" "userB" assetOwnedByB _ _
    rfl (by decide) (by decide) rfl rfl

/-- C5: the dispatcher attempts the offset commit exactly when handling
succeeded, and handling succeeds exactly when the body deserializes and either
no handler is registered for the event type or the registered handler returns
success; hence on a deserialization failure or a handler error the commit is
never attempted and the un-advanced offset causes redelivery. -/
theorem commit_iff_handling_succeeds (env : ConsumerEnv) :
    commitAttempted env = true ↔
      ∃ ev, env.deserialize = some ev ∧
        (env.handlers ev.type = none ∨ env.handlers ev.type = some (Except.ok ())) := by
  unfold commitAttempted handleMessage
  cases hd : env.deserialize with
  | none => simp
  | some ev =>
    cases hh : env.handlers ev.type with
    | none => simp [hh]
    | some r =>
      cases r with
      | error e => simp [hh]
      | ok u => simp [hh]

/-- Witness for `commit_iff_handling_succeeds`: an envelope with no registered
handler is committed. -/
theorem commit_iff_handling_succeeds_witness :
    commitAttempted envNoHandler = true :=
  (commit_iff_handling_succeeds envNoHandler).mpr ⟨_, rfl, Or.inl rfl⟩

/-- C6 counterexample: for a request with no resource association the derived
storage key is the empty string, not the unique slug, and in particular the
object-store write and the repository record use the empty key, which does not
contain the filename. -/
theorem file_key_empty_without_resource :
    computeFileKey none none (uniqueSlug 17 "avatar.png") = Except.ok ""
    ∧ ("" : String) ≠ uniqueSlug 17 "avatar.png"
    ∧ (uploadAsset dtoNoResource [1, 2, 3] shaStub 17 "id1" portsAllOk).2
      = [Effect.storagePut "" "image/png", Effect.repoCreate (some ""),
          Effect.cacheSet "asset:id1"] := by
  refine ⟨rfl, by decide, rfl⟩

/-- C6 (amended): when resource-type and resource-id are both present and
non-empty the key is `resourceType/resourceId/uniqueSlug`; when resource-type
is present and non-empty and resource-id is present but empty the key is
`resourceType/uniqueSlug`; when resource-type is present and non-empty and
resource-id is absent the derivation panics on a nil dereference; in every
other case the key is the empty string (containing neither disambiguator nor
filename); the unique slug concatenates the timestamp disambiguator, an
underscore and the original filename. -/
theorem file_key_derivation_cases (t i uSlug : String) (ts : Nat) (fn : String)
    (ht : t ≠ "") :
    computeFileKey (some t) (some i) uSlug
      = Except.ok (if i = "" then t ++ "/" ++ uSlug else t ++ "/" ++ i ++ "/" ++ uSlug)
    ∧ computeFileKey (some t) none uSlug = Except.error ()
    ∧ computeFileKey none (some i) uSlug = Except.ok ""
    ∧ computeFileKey none none uSlug = Except.ok ""
    ∧ computeFileKey (some "") (some i) uSlug = Except.ok ""
    ∧ computeFileKey (some "") none uSlug = Except.ok ""
    ∧ uniqueSlug ts fn = toString ts ++ "_" ++ fn := by
  refine ⟨?_, ?_, rfl, rfl, rfl, rfl, rfl⟩
  · by_cases hi : i = "" <;> simp [computeFileKey, ht, hi]
  · simp [computeFileKey, ht]

/-- Witness for `file_key_derivation_cases` at a concrete input. -/
theorem file_key_derivation_cases_witness :
    computeFileKey (some "users") none "3_f.png" = Except.error () :=
  (file_key_derivation_cases "users" "u1" "3_f.png" 3 "f.png" (by decide)).2.1

/-- C7 counterexample: on a cache miss followed by a repository hit, the
primary `GetAssetByID` returns the repository asset with a trace containing
only the cache read and the repository read — no cache write-back occurs in
that source. -/
theorem get_asset_no_writeback :
    getAssetByID "a1"
      { cacheGet := Except.error "cache miss", repoGet := Except.ok assetOwnedByB }
      = (Except.ok assetOwnedByB, [Effect.cacheGet "a1", Effect.repoGet "a1"]) := by
  rfl

/-- C7 (amended): on a cache hit the cached asset is returned without touching
the repository; on a cache miss or error the asset is read from the
repository; a repository failure is surfaced as the `ResourceNotFoundError`
domain error; the `part_008` variant then writes the asset back to the cache
best-effort, while the primary variant performs no write-back. -/
theorem get_asset_cache_aside (assetID eMiss eRepo : String) (a : Asset)
    (p : GetPorts) (pa : GetPortsAlt) :
    (p.cacheGet = Except.ok a →
      getAssetByID assetID p = (Except.ok a, [Effect.cacheGet assetID]))
    ∧ (p.cacheGet = Except.error eMiss → p.repoGet = Except.ok a →
      getAssetByID assetID p
        = (Except.ok a, [Effect.cacheGet assetID, Effect.repoGet assetID]))
    ∧ (p.cacheGet = Except.error eMiss → p.repoGet = Except.error eRepo →
      getAssetByID assetID p
        = (Except.error (NewDomainError ResourceNotFoundError "Asset not found" (some eRepo)),
            [Effect.cacheGet assetID, Effect.repoGet assetID]))
    ∧ (pa.cacheGet = Except.ok a →
      getAssetByIDAlt assetID pa
        = (Except.ok a, [Effect.cacheGet ("assets:" ++ assetID)]))
    ∧ (pa.cacheGet = Except.error eMiss → pa.repoGet = Except.ok a →
      getAssetByIDAlt assetID pa
        = (Except.ok a,
            [Effect.cacheGet ("assets:" ++ assetID), Effect.repoGet assetID,
              Effect.cacheSet ("assets:" ++ assetID)]))
    ∧ (pa.cacheGet = Except.error eMiss → pa.repoGet = Except.error eRepo →
      getAssetByIDAlt assetID pa
        = (Except.error (NewDomainError ResourceNotFoundError "Asset not found" (some eRepo)),
            [Effect.cacheGet ("assets:" ++ assetID), Effect.repoGet assetID])) := by
  refine ⟨?_, ?_, ?_, ?_, ?_, ?_⟩
  · intro h
    unfold getAssetByID
    rw [h]
  · intro h hr
    unfold getAssetByID
    rw [h, hr]
  · intro h hr
    unfold getAssetByID
    rw [h, hr]
  · intro h
    unfold getAssetByIDAlt
    rw [h]
  · intro h hr
    unfold getAssetByIDAlt
    rw [h, hr]
  · intro h hr
    unfold getAssetByIDAlt
    rw [h, hr]

/-- Witness for `get_asset_cache_aside` at a concrete input. -/
theorem get_asset_cache_aside_witness :
    getAssetByIDAlt "a1"
      { cacheGet := Except.error "cache miss", repoGet := Except.ok assetOwnedByB,
        cacheSet := Except.ok () }
      = (Except.ok assetOwnedByB,
          [Effect.cacheGet ("assets:" ++ "a1"), Effect.repoGet "a1",
            Effect.cacheSet ("assets:" ++ "a1")]) :=
  (get_asset_cache_aside "a1" "cache miss" "r" assetOwnedByB
      { cacheGet := Except.error "x", repoGet := Except.error "y" } _).2.2.2.2.1 rfl rfl

/-- C8: at the failing input — resource-type present and non-empty, resource-id
pointer nil, exactly the request shape `handleUserCreated` builds — the
key-derivation guard dereferences the nil resource-id pointer and the
operation panics before issuing any port call. -/
theorem upload_panics_on_nil_resource_id :
    uploadAsset dtoUsersNilResourceID [1, 2, 3] shaStub 5 "id1" portsAllOk
      = (UploadResult.panicked, [])
    ∧ computeFileKey (some "users") none (uniqueSlug 5 "avatar.png") = Except.error () := by
  exact ⟨rfl, rfl⟩

/-- C9: cache-call outcomes never reach the caller: the upload result is the
same for any two cache-set outcomes; the primary and `part_008` reads return
the same value for any two cache-get failures (and, in the variant, any two
write-back outcomes); and the `part_008` delete returns the same value for any
two cache-delete outcomes.  (A served cache hit is the one carve-out the claim
itself makes.) -/
theorem cache_outcomes_immaterial :
    (∀ (dto : CreateAssetDto) (fileData : List Nat) (sha : List Nat → String)
        (ts : Nat) (aid : String) (up : Except String String)
        (cr : Except String Asset) (df : Except String Unit)
        (o o' : Except String Unit),
      (uploadAsset dto fileData sha ts aid
          { uploadFile := up, createAsset := cr, deleteFile := df, cacheSet := o }).1
        = (uploadAsset dto fileData sha ts aid
          { uploadFile := up, createAsset := cr, deleteFile := df, cacheSet := o' }).1)
    ∧ (∀ (assetID e e' : String) (r : Except String Asset),
      (getAssetByID assetID { cacheGet := Except.error e, repoGet := r }).1
        = (getAssetByID assetID { cacheGet := Except.error e', repoGet := r }).1)
    ∧ (∀ (assetID e e' : String) (r : Except String Asset) (o o' : Except String Unit),
      (getAssetByIDAlt assetID
          { cacheGet := Except.error e, repoGet := r, cacheSet := o }).1
        = (getAssetByIDAlt assetID
          { cacheGet := Except.error e', repoGet := r, cacheSet := o' }).1)
    ∧ (∀ (assetID userID : String) (rg : Except String Asset)
        (sd rd : Except String Unit) (o o' : Except String Unit),
      (deleteAssetAlt assetID userID
          { repoGet := rg, storageDelete := sd, cacheDelete := o, repoDelete := rd }).1
        = (deleteAssetAlt assetID userID
          { repoGet := rg, storageDelete := sd, cacheDelete := o', repoDelete := rd }).1) := by
  refine ⟨?_, ?_, ?_, ?_⟩ <;> intros <;> rfl

/-- C10: an inbound user-created envelope whose decoded user identifier is
empty is handled as a success (`nil` error) with no `UploadAsset` call and no
outbound publish. -/
theorem user_created_empty_user_noop (p : UserCreatedPorts) (u : UserCreatedEvent)
    (hDecode : p.decode = Except.ok u) (hEmpty : u.userID = "") :
    handleUserCreated p = (none, []) := by
  unfold handleUserCreated
  rw [hDecode]
  simp [hEmpty]

/-- Witness for `user_created_empty_user_noop` at a concrete input. -/
theorem user_created_empty_user_noop_witness :
    handleUserCreated
      { decode := Except.ok userEventEmptyID,
        uploadAsset := Except.ok assetOwnedByB,
        publishAvatarUpdated := Except.ok () }
      = (none, []) :=
  user_created_empty_user_noop _ userEventEmptyID rfl rfl
